import Mathlib

/-!
Shallow embedding of the traffic-splitting reverse proxy
(`src/microservices/proxy/app.py`).

The Python module is a Flask app.  We embed each route handler as a pure
function.  Non-determinism from the environment (the random draw of the
split policy and the outcome of the outbound HTTP call) is passed in as an
explicit argument; the Prometheus metrics registry is passed as explicit
state (lists of recorded label events); the outbound GET requests issued by
a handler are returned as a list of full URL strings.
-/

namespace ProxyApp

/-- The migration configuration read from the environment at startup:
`GRADUAL_MIGRATION` and `MOVIES_MIGRATION_PERCENT` (app.py lines 19-20). -/
structure MigrationConfig where
  enabled : Bool
  percent : Nat
deriving Repr, DecidableEq

/-- The full service configuration: backend base addresses
(`MOVIES_URL`, `MONOLITH_URL`, `EVENTS_URL`, app.py lines 16-18) and the
migration settings. -/
structure ServiceConfig where
  moviesUrl : String
  monolithUrl : String
  eventsUrl : String
  migration : MigrationConfig
deriving Repr, DecidableEq

/-- `should_route_to_microservice` (app.py lines 41-44).  The call
`random.randint(1, 100)` is embedded as the explicit argument `draw`
(the random source draws an integer in `[1, 100]`, both ends inclusive). -/
def should_route_to_microservice (cfg : MigrationConfig) (draw : Nat) : Bool :=
  if !cfg.enabled then true
  else decide (draw ≤ cfg.percent)

/-- A successful upstream HTTP response as seen through the `requests`
library: `resp.status_code`, `resp.content` (raw bytes) and
`resp.headers.get('Content-Type')`, which is absent (`None`) when the
upstream sent no such header. -/
structure HttpResponse where
  status_code : Nat
  content : List Nat
  contentType : Option String
deriving Repr, DecidableEq

/-- The exceptions distinguished by `error_handler` (app.py lines 32-37):
`requests.exceptions.RequestException` (a transport failure) versus any
other `Exception` (an internal failure).  The payload is the exception
message. -/
inductive PyException where
  | requestException (msg : String)
  | otherException (msg : String)
deriving Repr, DecidableEq

/-- Outcome of the single outbound `requests.get` call: either a response
object or a raised exception. -/
inductive CallOutcome where
  | ok (resp : HttpResponse)
  | raises (e : PyException)
deriving Repr, DecidableEq

/-- Bodies of responses the proxy returns to its caller: raw relayed bytes
(`Response(resp.content, ...)`), a `jsonify` error object with a single
`error` field, a `jsonify` list of strings, or the health dict with a
single `status` field. -/
inductive Body where
  | raw (bytes : List Nat)
  | errorJson (msg : String)
  | jsonList (items : List String)
  | statusJson (msg : String)
deriving Repr, DecidableEq

/-- The response the Flask app sends to the original caller. -/
structure FlaskResponse where
  status : Nat
  body : Body
  contentType : String
deriving Repr, DecidableEq

/-- Flask substitutes its default mimetype (with charset) when a handler
passes `content_type=None` to `Response`. -/
def flaskDefaultContentType : String := "text/html; charset=utf-8"

/-- Content type produced by `jsonify` / dict returns. -/
def jsonContentType : String := "application/json"

/-- State of the Prometheus registry, recorded as the list of
`RESPONSE_TIME` observations (labels `(service, endpoint)`; the measured
wall-clock value is environmental and not recorded) and the list of
`REQUEST_COUNT` increments (labels `(service, endpoint, status)`),
in order of occurrence (app.py lines 23-24). -/
structure MetricsState where
  durations : List (String × String)
  counters : List (String × String × Nat)
deriving Repr, DecidableEq

def emptyMetrics : MetricsState := ⟨[], []⟩

/-- One `RESPONSE_TIME.labels(...).time()` observation.  The
`prometheus_client` timer context manager records the duration in its
exit hook unconditionally, so an observation is appended whether or not
the timed block raised. -/
def observeDuration (m : MetricsState) (service endpoint : String) : MetricsState :=
  { m with durations := m.durations ++ [(service, endpoint)] }

/-- One `REQUEST_COUNT.labels(...).inc()` increment. -/
def incrementCount (m : MetricsState) (service endpoint : String) (status : Nat) : MetricsState :=
  { m with counters := m.counters ++ [(service, endpoint, status)] }

/-- The `error_handler` decorator (app.py lines 27-38): a wrapped handler
body that returned normally passes through; a raised
`requests.exceptions.RequestException` becomes a 503 with a generic
unavailability body; any other exception becomes a 500 with a generic
internal-error body.  The exception message is logged, never returned. -/
def error_handler (inner : Except PyException FlaskResponse) : FlaskResponse :=
  match inner with
  | .ok r => r
  | .error (.requestException _) =>
      { status := 503
      , body := .errorJson "Service temporarily unavailable"
      , contentType := jsonContentType }
  | .error (.otherException _) =>
      { status := 500
      , body := .errorJson "Internal server error"
      , contentType := jsonContentType }

/-- `Response(resp.content, status=resp.status_code,
content_type=resp.headers.get('Content-Type'))` (app.py lines 71 and 83):
body bytes and status relayed verbatim; a missing upstream content type
falls back to the Flask default. -/
def relayResponse (resp : HttpResponse) : FlaskResponse :=
  { status := resp.status_code
  , body := .raw resp.content
  , contentType := resp.contentType.getD flaskDefaultContentType }

/-- What one handler invocation produces: the caller-visible response, the
resulting metrics state, and the full URLs of the outbound GET requests it
issued, in order. -/
structure HandlerResult where
  response : FlaskResponse
  metrics : MetricsState
  calls : List String
deriving Repr, DecidableEq

/-- `proxy_movies` (app.py lines 55-74), wrapped by `error_handler`.
The split decision picks the service label; the timed block issues one GET
to the chosen backend's base address plus `/api/movies`; on a normal
return the status counter is incremented with the upstream status and the
upstream response is relayed; on any exception inside the handler body the
counter is incremented with status 500 and the exception is re-raised into
`error_handler`. -/
def proxy_movies (cfg : ServiceConfig) (draw : Nat) (outcome : CallOutcome)
    (m : MetricsState) : HandlerResult :=
  let service := if should_route_to_microservice cfg.migration draw
                 then "microservice" else "monolith"
  let endpoint := "/api/movies"
  let url := if service == "microservice"
             then cfg.moviesUrl ++ "/api/movies"
             else cfg.monolithUrl ++ "/api/movies"
  let m1 := observeDuration m service endpoint
  match outcome with
  | .ok resp =>
      let m2 := incrementCount m1 service endpoint resp.status_code
      { response := error_handler (.ok (relayResponse resp))
      , metrics := m2
      , calls := [url] }
  | .raises e =>
      let m2 := incrementCount m1 service endpoint 500
      { response := error_handler (.error e)
      , metrics := m2
      , calls := [url] }

/-- `proxy_events` (app.py lines 76-86), wrapped by `error_handler`.
Fixed forward: the timed block issues one GET to `EVENTS_URL + "/"`
(the root path, app.py line 81); metrics are labeled
`("events", "/api/events")`; success and failure are handled exactly as
in `proxy_movies`. -/
def proxy_events (cfg : ServiceConfig) (outcome : CallOutcome)
    (m : MetricsState) : HandlerResult :=
  let url := cfg.eventsUrl ++ "/"
  let m1 := observeDuration m "events" "/api/events"
  match outcome with
  | .ok resp =>
      let m2 := incrementCount m1 "events" "/api/events" resp.status_code
      { response := error_handler (.ok (relayResponse resp))
      , metrics := m2
      , calls := [url] }
  | .raises e =>
      let m2 := incrementCount m1 "events" "/api/events" 500
      { response := error_handler (.error e)
      , metrics := m2
      , calls := [url] }

/-- `get_health` (app.py lines 46-48): returns the fixed liveness dict
with status 200.  Not decorated with `error_handler`, touches no metrics,
issues no outbound call. -/
def get_health (m : MetricsState) : HandlerResult :=
  { response := { status := 200
                , body := .statusJson "proxy-service is healthy"
                , contentType := jsonContentType }
  , metrics := m
  , calls := [] }

/-- The static user list returned by `get_users` (app.py line 91). -/
def users_list : List String :=
  ["Пользователь 1", "Пользователь 2", "Пользователь 3"]

/-- `get_users` (app.py lines 88-91), wrapped by `error_handler`: returns
the fixed jsonified list with status 200; no metrics, no outbound call. -/
def get_users (m : MetricsState) : HandlerResult :=
  { response := error_handler (.ok { status := 200
                                   , body := .jsonList users_list
                                   , contentType := jsonContentType })
  , metrics := m
  , calls := [] }

/-- One entry of the route table: the public path and whether its handler
is decorated with `error_handler`. -/
structure Route where
  path : String
  wrapped : Bool
deriving Repr, DecidableEq

/-- The `@app.route` registrations of app.py, in file order, with the
presence of the `@error_handler` decorator on each handler
(app.py lines 46, 50-51, 55-56, 76-77, 88-89). -/
def routeTable : List Route :=
  [ ⟨"/health", false⟩
  , ⟨"/metrics", true⟩
  , ⟨"/api/movies", true⟩
  , ⟨"/api/events", true⟩
  , ⟨"/api/users", true⟩ ]

/-- A concrete configuration using the default environment values of
app.py lines 16-20, used by concrete-input theorems. -/
def cfgDefault : ServiceConfig :=
  { moviesUrl := "http://movies-service:8081"
  , monolithUrl := "http://monolith:8080"
  , eventsUrl := "http://events-service:8082"
  , migration := { enabled := false, percent := 0 } }

/-- C1 counterexample: at a concrete transport failure on `/api/movies`
the caller receives 503, yet the single recorded counter increment is
labeled status=500, and no increment labeled status=503 exists — the
claim as stated is false on the code. -/
theorem C1_counterexample :
    (proxy_movies cfgDefault 1 (.raises (.requestException "connection refused"))
        emptyMetrics).response.status = 503 ∧
    (proxy_movies cfgDefault 1 (.raises (.requestException "connection refused"))
        emptyMetrics).metrics.counters = [("microservice", "/api/movies", 500)] ∧
    ("microservice", "/api/movies", 503) ∉
      (proxy_movies cfgDefault 1 (.raises (.requestException "connection refused"))
        emptyMetrics).metrics.counters := by
  decide

/-- C1 (amended): for every transport failure on a proxied endpoint the
caller receives status 503 with the generic body, and exactly one counter
increment is recorded for the attempted (service, endpoint) — but it is
labeled status=500, not 503; the body is the same fixed value for every
cause, so it never contains the raw exception text. -/
theorem C1_transport_failure_translation (cfg : ServiceConfig) (draw : Nat)
    (cause : String) (m : MetricsState) :
    ((proxy_movies cfg draw (.raises (.requestException cause)) m).response.status = 503 ∧
     (proxy_movies cfg draw (.raises (.requestException cause)) m).response.body =
       .errorJson "Service temporarily unavailable" ∧
     (proxy_movies cfg draw (.raises (.requestException cause)) m).metrics.counters =
       m.counters ++ [((if should_route_to_microservice cfg.migration draw
                        then "microservice" else "monolith"), "/api/movies", 500)]) ∧
    ((proxy_events cfg (.raises (.requestException cause)) m).response.status = 503 ∧
     (proxy_events cfg (.raises (.requestException cause)) m).response.body =
       .errorJson "Service temporarily unavailable" ∧
     (proxy_events cfg (.raises (.requestException cause)) m).metrics.counters =
       m.counters ++ [("events", "/api/events", 500)]) := by
  cases hb : should_route_to_microservice cfg.migration draw <;>
    simp [proxy_movies, proxy_events, observeDuration, incrementCount,
      error_handler, hb]

/-- C2 counterexample: at a concrete successful call, `/api/events` issues
its single outbound GET to the events backend's root path `/`, not to
`/api/events` — the claim as stated is false on the code. -/
theorem C2_counterexample :
    (proxy_events cfgDefault (.ok ⟨200, [1, 2, 3], some "application/json"⟩)
        emptyMetrics).calls = ["http://events-service:8082/"] ∧
    (proxy_events cfgDefault (.ok ⟨200, [1, 2, 3], some "application/json"⟩)
        emptyMetrics).calls ≠ ["http://events-service:8082/api/events"] := by
  decide

/-- C2 (amended): each proxied endpoint issues exactly one outbound GET to
`baseAddress + path`; for `/api/movies` the path is the public path
`/api/movies` (against the split-chosen backend), while for `/api/events`
the path is the root `/`, not the public path `/api/events`. -/
theorem C2_forwarding_urls (cfg : ServiceConfig) (draw : Nat)
    (outcome : CallOutcome) (m : MetricsState) :
    (proxy_movies cfg draw outcome m).calls =
      [(if should_route_to_microservice cfg.migration draw
         then cfg.moviesUrl else cfg.monolithUrl) ++ "/api/movies"] ∧
    (proxy_events cfg outcome m).calls = [cfg.eventsUrl ++ "/"] := by
  cases hb : should_route_to_microservice cfg.migration draw <;>
    cases outcome <;> simp [proxy_movies, proxy_events, hb]

/-- C3: with gradual migration enabled and a draw in `[1, 100]`, the split
policy returns the new backend (microservice) iff the draw is at most
`percent`; hence `percent = 0` always yields the old backend and
`percent = 100` always yields the new one. -/
theorem C3_split_policy_enabled (cfg : MigrationConfig) (draw : Nat)
    (hen : cfg.enabled = true) (h1 : 1 ≤ draw) (h100 : draw ≤ 100) :
    (should_route_to_microservice cfg draw = true ↔ draw ≤ cfg.percent) ∧
    (cfg.percent = 0 → should_route_to_microservice cfg draw = false) ∧
    (cfg.percent = 100 → should_route_to_microservice cfg draw = true) := by
  refine ⟨by simp [should_route_to_microservice, hen], ?_, ?_⟩
  · intro h0
    simp [should_route_to_microservice, hen, h0]
    omega
  · intro hfull
    simp [should_route_to_microservice, hen, hfull]
    omega

/-- C3 witness: the split-policy theorem applied at the concrete enabled
configuration with `percent = 50` and draw `30`. -/
theorem C3_split_policy_enabled_witness :
    (MigrationConfig.mk true 50).enabled = true ∧ 1 ≤ 30 ∧ 30 ≤ 100 ∧
    ((should_route_to_microservice ⟨true, 50⟩ 30 = true ↔
        30 ≤ (MigrationConfig.mk true 50).percent) ∧
     ((MigrationConfig.mk true 50).percent = 0 →
        should_route_to_microservice ⟨true, 50⟩ 30 = false) ∧
     ((MigrationConfig.mk true 50).percent = 100 →
        should_route_to_microservice ⟨true, 50⟩ 30 = true)) :=
  ⟨rfl, by decide, by decide,
   C3_split_policy_enabled ⟨true, 50⟩ 30 rfl (by decide) (by decide)⟩

/-- C4: with gradual migration disabled the split policy returns the new
backend (microservice) for every percent value and every random draw. -/
theorem C4_disabled_always_microservice (cfg : MigrationConfig) (draw : Nat)
    (hdis : cfg.enabled = false) :
    should_route_to_microservice cfg draw = true := by
  simp [should_route_to_microservice, hdis]

/-- C4 witness: the disabled-migration theorem applied at the concrete
configuration with enabled=false, percent=0 and draw 7. -/
theorem C4_disabled_always_microservice_witness :
    (MigrationConfig.mk false 0).enabled = false ∧
    should_route_to_microservice ⟨false, 0⟩ 7 = true :=
  ⟨rfl, C4_disabled_always_microservice ⟨false, 0⟩ 7 rfl⟩

/-- C5: for every request to a proxied endpoint and every outcome (success
or raised exception), exactly one duration observation and exactly one
counter increment are appended, their (service, endpoint) labels match the
backend actually invoked (the single outbound URL is that backend's), and
the metrics state changes in no other way. -/
theorem C5_exactly_one_observation_and_increment (cfg : ServiceConfig)
    (draw : Nat) (outcome : CallOutcome) (m : MetricsState) :
    ((proxy_movies cfg draw outcome m).metrics.durations =
       m.durations ++ [((if should_route_to_microservice cfg.migration draw
                         then "microservice" else "monolith"), "/api/movies")] ∧
     (∃ st, (proxy_movies cfg draw outcome m).metrics.counters =
       m.counters ++ [((if should_route_to_microservice cfg.migration draw
                        then "microservice" else "monolith"), "/api/movies", st)]) ∧
     (proxy_movies cfg draw outcome m).calls =
       [(if should_route_to_microservice cfg.migration draw
          then cfg.moviesUrl else cfg.monolithUrl) ++ "/api/movies"]) ∧
    ((proxy_events cfg outcome m).metrics.durations =
       m.durations ++ [("events", "/api/events")] ∧
     (∃ st, (proxy_events cfg outcome m).metrics.counters =
       m.counters ++ [("events", "/api/events", st)]) ∧
     (proxy_events cfg outcome m).calls = [cfg.eventsUrl ++ "/"]) := by
  cases hb : should_route_to_microservice cfg.migration draw <;>
    cases outcome <;>
    simp [proxy_movies, proxy_events, observeDuration, incrementCount, hb]

/-- C6: when the outbound call succeeds and the upstream declared a
content type, the caller receives exactly the upstream's body bytes,
status code and content type, unchanged. -/
theorem C6_success_transparency (cfg : ServiceConfig) (draw : Nat)
    (resp : HttpResponse) (m : MetricsState) (ct : String)
    (hct : resp.contentType = some ct) :
    (proxy_movies cfg draw (.ok resp) m).response =
      { status := resp.status_code, body := .raw resp.content, contentType := ct } ∧
    (proxy_events cfg (.ok resp) m).response =
      { status := resp.status_code, body := .raw resp.content, contentType := ct } := by
  simp [proxy_movies, proxy_events, error_handler, relayResponse, hct]

/-- C6 witness: the transparency theorem applied at a concrete upstream
response with a declared content type. -/
theorem C6_success_transparency_witness :
    (HttpResponse.mk 200 [1, 2, 3] (some "application/json")).contentType =
      some "application/json" ∧
    ((proxy_movies cfgDefault 1 (.ok ⟨200, [1, 2, 3], some "application/json"⟩)
        emptyMetrics).response =
      { status := 200, body := .raw [1, 2, 3], contentType := "application/json" } ∧
     (proxy_events cfgDefault (.ok ⟨200, [1, 2, 3], some "application/json"⟩)
        emptyMetrics).response =
      { status := 200, body := .raw [1, 2, 3], contentType := "application/json" }) :=
  ⟨rfl, C6_success_transparency cfgDefault 1 ⟨200, [1, 2, 3], some "application/json"⟩
          emptyMetrics "application/json" rfl⟩

/-- C7 counterexample: `/health` is registered in the route table without
the `error_handler` decoration, so not every public endpoint is wrapped —
the claim as stated is false on the code. -/
theorem C7_counterexample :
    (Route.mk "/health" false) ∈ routeTable ∧
    ¬ (∀ r ∈ routeTable, r.wrapped = true) := by
  decide

/-- C7 (amended): every public endpoint except `/health` is wrapped by the
failure-translation boundary, and every fault reaching the boundary is
classified as transport (status 503) or internal (status 500). -/
theorem C7_boundary_except_health (r : Route) (e : PyException)
    (hmem : r ∈ routeTable) (hpath : r.path ≠ "/health") :
    r.wrapped = true ∧
    ((error_handler (.error e)).status = 503 ∨
     (error_handler (.error e)).status = 500) := by
  constructor
  · simp [routeTable] at hmem
    rcases hmem with h | h | h | h | h <;> subst h <;>
      first | rfl | exact absurd rfl hpath
  · cases e
    · exact Or.inl rfl
    · exact Or.inr rfl

/-- C7 witness: the boundary theorem applied at the concrete `/metrics`
route and a concrete transport exception. -/
theorem C7_boundary_except_health_witness :
    (Route.mk "/metrics" true) ∈ routeTable ∧
    (Route.mk "/metrics" true).path ≠ "/health" ∧
    ((Route.mk "/metrics" true).wrapped = true ∧
     ((error_handler (.error (.requestException "refused"))).status = 503 ∨
      (error_handler (.error (.requestException "refused"))).status = 500)) :=
  ⟨by decide, by decide,
   C7_boundary_except_health ⟨"/metrics", true⟩ (.requestException "refused")
     (by decide) (by decide)⟩

/-- C8: every request to `/health` returns status 200 with the fixed
liveness payload, issues no outbound call, and leaves the metrics state
unchanged. -/
theorem C8_health_no_side_effects (m : MetricsState) :
    (get_health m).response.status = 200 ∧
    (get_health m).response.body = .statusJson "proxy-service is healthy" ∧
    (get_health m).calls = [] ∧
    (get_health m).metrics = m :=
  ⟨rfl, rfl, rfl, rfl⟩

/-- C9: every request to `/api/users` returns status 200 with the same
fixed three-item list, issues no outbound call, and records no metrics. -/
theorem C9_users_static_list (m : MetricsState) :
    (get_users m).response.status = 200 ∧
    (get_users m).response.body = .jsonList users_list ∧
    users_list.length = 3 ∧
    (get_users m).calls = [] ∧
    (get_users m).metrics = m :=
  ⟨rfl, rfl, rfl, rfl, rfl⟩

/-- C10: when a successful upstream response carries no Content-Type
header, the body and status are still relayed and the caller's
content type is the framework default, not the absent upstream value. -/
theorem C10_missing_content_type_default (cfg : ServiceConfig) (draw : Nat)
    (resp : HttpResponse) (m : MetricsState) (hct : resp.contentType = none) :
    (proxy_movies cfg draw (.ok resp) m).response =
      { status := resp.status_code, body := .raw resp.content
      , contentType := flaskDefaultContentType } ∧
    (proxy_events cfg (.ok resp) m).response =
      { status := resp.status_code, body := .raw resp.content
      , contentType := flaskDefaultContentType } := by
  simp [proxy_movies, proxy_events, error_handler, relayResponse, hct]

/-- C10 witness: the default-content-type theorem applied at a concrete
upstream response with no Content-Type header. -/
theorem C10_missing_content_type_default_witness :
    (HttpResponse.mk 204 [] none).contentType = none ∧
    ((proxy_movies cfgDefault 1 (.ok ⟨204, [], none⟩) emptyMetrics).response =
      { status := 204, body := .raw [], contentType := flaskDefaultContentType } ∧
     (proxy_events cfgDefault (.ok ⟨204, [], none⟩) emptyMetrics).response =
      { status := 204, body := .raw [], contentType := flaskDefaultContentType }) :=
  ⟨rfl, C10_missing_content_type_default cfgDefault 1 ⟨204, [], none⟩ emptyMetrics rfl⟩

end ProxyApp
